import Mathlib

/-!
Shallow embedding of `src/debot/term_browser.rs` (the tonos-cli debot
terminal browser) and proofs about the router, callback bridge and
operator-input loop.

Modelling conventions:
* Pure Rust functions become Lean functions; the stateful browser loop
  becomes explicit state passing over `TerminalBrowser`, fuelled where the
  source loop is unbounded.
* Machine integers are `Nat`/`Int` with explicit wrap-around where it
  matters.  We follow release-build semantics: `usize` arithmetic wraps
  modulo `2 ^ 64`, and an out-of-bounds slice index is a panic, modelled by
  the `Outcome.panic` constructor.
* External collaborators (the debot engine, boc parsing, address loading
  from `crate::helpers`, the interface registry, the signing box) enter
  through an `Env` record of functions; each field's doc comment records
  the contract the source relies on.
* Terminal output is modelled as the list of lines printed with
  `println!`; bare prompts written with `print!` (no newline) are not
  recorded as lines.  Output emitted inside a step that then fails is
  dropped together with the failing step, since the run aborts there.
-/

namespace TermBrowser

/-- Modelled from the spec: the terminal sentinel context id `STATE_EXIT`
imported from the engine SDK (`ton_client::debot`), the reserved `u8`
value 255. -/
def STATE_EXIT : Nat := 255

/-- Modelled from the spec: the reserved workchain tag `DEBOT_WC` imported
from the engine SDK, marking an envelope destination as a local capability
(interface) call rather than another bot. -/
def DEBOT_WC : Int := -31

/-- Action descriptor (`DAction` from the SDK): the browser reads only
`desc` for display and passes the value back to the engine opaquely. -/
structure DAction where
  name : String
  desc : String
deriving DecidableEq, Repr, Inhabited

/-- Per-session mutable state `ActiveState` (source lines 143-148), written
by the engine's callbacks and read by the menu loop. -/
structure ActiveState where
  state_id : Nat
  active_actions : List DAction
  msg_queue : List String
deriving DecidableEq, Repr

/-- The `#[derive(Default)]` initial state: context 0, no actions, empty
queue. -/
def ActiveState.initial : ActiveState := ⟨0, [], []⟩

/-- Rust `Callbacks::switch` (lines 196-205): set the context id; clear the
action list unless switching to the terminal sentinel. -/
def Callbacks.switch (st : ActiveState) (ctx_id : Nat) : ActiveState :=
  let st1 := { st with state_id := ctx_id }
  if ctx_id = STATE_EXIT then st1 else { st1 with active_actions := [] }

/-- Rust `Callbacks::show_action` (lines 211-215): print the 1-based
position and description, then append the action.  Returns the printed line
together with the new state. -/
def Callbacks.show_action (st : ActiveState) (act : DAction) : String × ActiveState :=
  (toString (st.active_actions.length + 1) ++ ") " ++ act.desc,
   { st with active_actions := st.active_actions ++ [act] })

/-- Rust `Callbacks::send` (lines 246-249): push the message on this
session's outbound queue. -/
def Callbacks.send (st : ActiveState) (message : String) : ActiveState :=
  { st with msg_queue := st.msg_queue ++ [message] }

/-- One engine-callback invocation observable in the router's state: the
state-bearing callbacks of the `BrowserCallbacks` impl plus `log`. -/
inductive CallbackEvent where
  | log (msg : String)
  | switchCtx (ctx_id : Nat)
  | showAction (act : DAction)
  | sendMsg (message : String)
deriving DecidableEq, Repr

/-- Apply one callback to the session state; also returns the printed
lines. -/
def applyEvent (st : ActiveState) : CallbackEvent → ActiveState × List String
  | .log m => (st, [m])
  | .switchCtx c => (Callbacks.switch st c, [])
  | .showAction a => ((Callbacks.show_action st a).2, [(Callbacks.show_action st a).1])
  | .sendMsg m => (Callbacks.send st m, [])

/-- Apply a burst of callbacks in order, collecting printed lines. -/
def applyEvents (st : ActiveState) : List CallbackEvent → ActiveState × List String
  | [] => (st, [])
  | e :: es =>
    ((applyEvents (applyEvent st e).1 es).1,
     (applyEvent st e).2 ++ (applyEvents (applyEvent st e).1 es).2)

/-- Ascii decimal digit test (Rust `char::is_ascii_digit`, the digits
accepted by radix-10 `from_str_radix`). -/
def isDigitChar (c : Char) : Bool := 48 ≤ c.toNat && c.toNat ≤ 57

/-- Value of a digit string, most significant first. -/
def digitsVal (cs : List Char) : Nat :=
  cs.foldl (fun acc c => acc * 10 + (c.toNat - 48)) 0

/-- Modelled after `usize::from_str_radix(s, 10)` (source line 309):
optional leading `+`, at least one digit, value bounded by `usize::MAX`. -/
def usize_from_str_radix (s : String) : Option Nat :=
  let ds := match s.data with
    | '+' :: rest => rest
    | cs => cs
  if ds.length = 0 then none
  else if ds.all isDigitChar then
    if digitsVal ds < 2 ^ 64 then some (digitsVal ds) else none
  else none

/-- Radix-10 signed parse on characters: optional sign, at least one
digit, result within the given bounds. -/
def i8_from_chars (cs : List Char) : Option Int :=
  let neg : Bool := match cs with
    | '-' :: _ => true
    | _ => false
  let ds := match cs with
    | '-' :: rest => rest
    | '+' :: rest => rest
    | l => l
  if ds.length = 0 then none
  else if ds.all isDigitChar then
    let v : Int := if neg then -(digitsVal ds : Int) else (digitsVal ds : Int)
    if -128 ≤ v ∧ v ≤ 127 then some v else none
  else none

/-- Modelled after `i8::from_str_radix(s, 10)` (source line 347): optional
sign, at least one digit, range -128..=127. -/
def i8_from_str_radix (s : String) : Option Int :=
  i8_from_chars s.data

/-- Rust `str::split(sep)` on characters: separators delimit possibly
empty parts, so the result is always non-empty and a string without the
separator yields exactly one part. -/
def splitCharsOn (sep : Char) : List Char → List (List Char)
  | [] => [[]]
  | c :: rest =>
    if c = sep then [] :: splitCharsOn sep rest
    else match splitCharsOn sep rest with
      | [] => [[c]]
      | g :: gs => (c :: g) :: gs

/-- Pure core of `action_input` (lines 292-316): the operator's first
whitespace-separated token is parsed as a decimal `usize`, and values above
the action count are rejected.  The surrounding read-loop that skips blank
lines is represented by feeding one non-blank token per call. -/
def action_input (maxn : Nat) (token : String) : Except String Nat :=
  match usize_from_str_radix token with
  | none => Except.error "Oops! Invalid action. Try again, please."
  | some n =>
    if n > maxn then Except.error "Auch! Invalid action. Try again, please."
    else Except.ok n

/-- Release-build `usize` wrap-around of `n - 1` used at source line 178
(`state.active_actions.get(n - 1)` with `n : usize`). -/
def usizeSub1 (n : Nat) : Nat := (n + (2 ^ 64 - 1)) % 2 ^ 64

/-- Lock-discipline events of `Callbacks::select_action`: the read guard
taken on entry (line 162), each blocking `action_input` stdin read, and the
guard drop at function return. -/
inductive LockEvent where
  | acquireRead
  | blockingInput
  | releaseRead
deriving DecidableEq, Repr

/-- Result of `select_action`: a chosen action, `None` (the browser loop
breaks), or still blocked on an operator read when the scripted input runs
out. -/
inductive SelectResult where
  | selected (a : DAction)
  | exitBrowser
  | blocked
deriving DecidableEq, Repr

/-- One run of `select_action`: result, printed lines, lock-event trace,
and the unconsumed operator input. -/
structure SelectRun where
  result : SelectResult
  output : List String
  trace : List LockEvent
  rest : List String
deriving DecidableEq, Repr

/-- The retry loop of `Callbacks::select_action` (lines 171-184): each
iteration performs one blocking `action_input` read while the read guard is
held, and invalid input prints a retry line and loops. -/
def select_action_loop (actions : List DAction) : List String → SelectRun
  | [] => ⟨.blocked, [], [.blockingInput], []⟩
  | tok :: rest =>
    match action_input actions.length tok with
    | .error e =>
      let r := select_action_loop actions rest
      ⟨r.result, e :: r.output, .blockingInput :: r.trace, r.rest⟩
    | .ok n =>
      match actions[usizeSub1 n]? with
      | none =>
        let r := select_action_loop actions rest
        ⟨r.result, "Invalid action. Try again." :: r.output, .blockingInput :: r.trace, r.rest⟩
      | some a => ⟨.selected a, [], [.blockingInput], rest⟩

/-- Rust `Callbacks::select_action` (lines 161-185): take the read guard,
return `None` on the terminal sentinel or an empty action list, otherwise
run the retry loop.  The guard is dropped only when the function returns,
so a run that is still blocked has not released it. -/
def select_action (st : ActiveState) (inputs : List String) : SelectRun :=
  if st.state_id = STATE_EXIT then ⟨.exitBrowser, [], [.acquireRead, .releaseRead], inputs⟩
  else if st.active_actions.length = 0 then
    ⟨.exitBrowser, [], [.acquireRead, .releaseRead], inputs⟩
  else
    let r := select_action_loop st.active_actions inputs
    ⟨r.result, r.output,
      .acquireRead :: (r.trace ++ if r.result = .blocked then [] else [.releaseRead]),
      r.rest⟩

/-- Fold step for the lock audit: tracks (number of held read guards, flag
recording whether a blocking read has happened while one was held). -/
def lockFoldStep (p : Nat × Bool) : LockEvent → Nat × Bool
  | .acquireRead => (p.1 + 1, p.2)
  | .releaseRead => (p.1 - 1, p.2)
  | .blockingInput => (p.1, p.2 || decide (0 < p.1))

/-- Whether some blocking operator read happens while a read guard is
held. -/
def blockedWhileHoldingLock (tr : List LockEvent) : Bool :=
  (tr.foldl lockFoldStep (0, false)).2

/-- Opaque ABI value produced by `load_abi` (external helper); the browser
only stores it and hands it back to `encode_internal_message`. -/
structure Abi where
  json : String
deriving DecidableEq, Repr

/-- Rust `DebotEntry` (lines 26-30): the session's ABI and the state behind
its callback bridge.  The engine handle itself is stateless in this model;
its behaviour is supplied by `Env`. -/
structure DebotEntry where
  abi : Abi
  callbacks_state : ActiveState
deriving DecidableEq, Repr

/-- Rust `TerminalBrowser` (lines 33-43): the shared message queue and the
map of instantiated debots (`HashMap` modelled as an association list with
replace-on-insert).  The client handle, interface registry and config are
carried by `Env`. -/
structure TerminalBrowser where
  msg_queue : List String
  bots : List (String × DebotEntry)
deriving DecidableEq, Repr

/-- Lookup in the bots map (`HashMap::get`). -/
def botsLookup : List (String × DebotEntry) → String → Option DebotEntry
  | [], _ => none
  | (k, v) :: rest, key => if k = key then some v else botsLookup rest key

/-- Insert into the bots map (`HashMap::insert`, replacing any existing
entry for the key). -/
def botsInsert : List (String × DebotEntry) → String → DebotEntry → List (String × DebotEntry)
  | [], key, v => [(key, v)]
  | (k, v0) :: rest, key, v => if k = key then (key, v) :: rest else (k, v0) :: botsInsert rest key v

/-- External collaborators of the browser, as the functions the source
calls.  Engine calls return their `Result` together with the callback
events the engine emitted into the session's `Callbacks` during the call. -/
structure Env where
  /-- Modelled from the spec: `load_ton_address` from `crate::helpers` (not
  under src); validates the operator-supplied address and returns its
  normalized form, or an error string. -/
  load_ton_address : String → Except String String
  /-- Modelled from the spec: `load_abi` from `crate::helpers`; parses the
  ABI json returned by the engine. -/
  load_abi : String → Except String Abi
  /-- Modelled from the spec: `DEngine::start`/`DEngine::fetch` for the
  session at the given (normalized) address; the Bool is the `start` flag.
  Returns the ABI json and the callback events emitted during start-up. -/
  dengine_start : String → Bool → Except String String × List CallbackEvent
  /-- Modelled from the spec: `DEngine::send` for the session at the given
  address, handed a raw message boc. -/
  dengine_send : String → String → Except String Unit × List CallbackEvent
  /-- Modelled from the spec: `DEngine::execute_action` for the session at
  the given address. -/
  execute_action : String → DAction → Except String Unit × List CallbackEvent
  /-- Modelled from the spec: SDK `parse_message`; returns the optional
  `dst` and `src` string fields of the parsed envelope, or a parse error. -/
  parse_message : String → Except String (Option String × Option String)
  /-- Modelled from the spec: `SupportedInterfaces::try_execute`; `none`
  means the capability is not recognized. -/
  try_execute : String → String → Option (Except String (Nat × String))
  /-- Modelled from the spec: SDK `encode_internal_message`, given the
  destination debot's ABI, its address, and the optional call set
  (function id, return args); returns the encoded response message. -/
  encode_internal_message : Abi → String → Option (Nat × String) → Except String String

/-- Rust `TerminalBrowser::fetch_debot` (lines 56-86): normalize the
address, start or fetch the engine with a fresh callback bridge, load the
ABI, drain the start-up messages into the shared queue, and store the
session under the normalized address.  Returns the new browser state and
the lines printed by start-up callbacks. -/
def fetch_debot (env : Env) (b : TerminalBrowser) (addr : String) (start : Bool) :
    Except String (TerminalBrowser × List String) :=
  match env.load_ton_address addr with
  | .error e => .error e
  | .ok debot_addr =>
    match env.dengine_start debot_addr start with
    | (res, events) =>
      match applyEvents ActiveState.initial events with
      | (cbState, out) =>
        match res with
        | .error e => .error e
        | .ok abi_json =>
          match env.load_abi abi_json with
          | .error e => .error e
          | .ok abi =>
            .ok ({ msg_queue := b.msg_queue ++ cbState.msg_queue,
                   bots := botsInsert b.bots debot_addr
                     ⟨abi, { cbState with msg_queue := [] }⟩ }, out)

/-- Rust `TerminalBrowser::call_interface` (lines 88-127): look up the
source session, ask the interface registry; on `None` the message is
dropped silently.  On a recognized call, encode the response, `send` it to
the engine, merge the reaction messages into the shared queue, and print a
non-fatal `Debot error` line if the send failed. -/
def call_interface (env : Env) (b : TerminalBrowser) (msg : String)
    (interface_id : String) (debot_addr : String) :
    Except String (TerminalBrowser × List String) :=
  match botsLookup b.bots debot_addr with
  | none => .error "Internal browser error: debot not found"
  | some debot =>
    match env.try_execute msg interface_id with
    | none => .ok (b, [])
    | some result =>
      match result with
      | .error e => .error e
      | .ok (func_id, return_args) =>
        match env.encode_internal_message debot.abi debot_addr
            (if func_id = 0 then none else some (func_id, return_args)) with
        | .error e => .error e
        | .ok response_msg =>
          match env.dengine_send debot_addr response_msg with
          | (res, events) =>
            match applyEvents debot.callbacks_state events with
            | (st1, out) =>
              let b1 : TerminalBrowser :=
                { msg_queue := b.msg_queue ++ st1.msg_queue,
                  bots := botsInsert b.bots debot_addr
                    ⟨debot.abi, { st1 with msg_queue := [] }⟩ }
              match res with
              | .error e => .ok (b1, out ++ ["Debot error: " ++ e])
              | .ok _ => .ok (b1, out)

/-- Rust `TerminalBrowser::call_debot` (lines 129-139): lazily fetch the
destination session, `send` the raw message to its engine — a failure here
is propagated with `?` as the fatal error `Debot failed: ...` — then merge
the reaction messages into the shared queue. -/
def call_debot (env : Env) (b : TerminalBrowser) (addr : String) (msg : String) :
    Except String (TerminalBrowser × List String) :=
  match (if (botsLookup b.bots addr).isNone then fetch_debot env b addr false
         else .ok (b, [])) with
  | .error e => .error e
  | .ok (b0, out0) =>
    match botsLookup b0.bots addr with
    | none => .error "Internal error: debot not found"
    | some debot =>
      match env.dengine_send addr msg with
      | (res, events) =>
        match res with
        | .error e => .error ("Debot failed: " ++ e)
        | .ok _ =>
          match applyEvents debot.callbacks_state events with
          | (st1, out) =>
            .ok ({ msg_queue := b0.msg_queue ++ st1.msg_queue,
                   bots := botsInsert b0.bots addr
                     ⟨debot.abi, { st1 with msg_queue := [] }⟩ }, out0 ++ out)

/-- Outcome of one drained-envelope step: success, a returned error
(`Err` propagated by `?`), or a Rust panic. -/
inductive Outcome (α : Type) where
  | ok (a : α)
  | err (e : String)
  | panic (msg : String)
deriving DecidableEq, Repr

/-- Whether an outcome is a returned error. -/
def Outcome.isErr {α : Type} : Outcome α → Bool
  | .err _ => true
  | _ => false

/-- Whether an outcome is a panic. -/
def Outcome.isPanic {α : Type} : Outcome α → Bool
  | .panic _ => true
  | _ => false

/-- One drained-envelope step of `run_debot_browser` (lines 329-353):
parse the message, read its `dst` and `src`, split the destination on `:`,
and classify by workchain tag.  `wc_and_addr[1]` in the source is an
unguarded slice index: a destination with no `:` panics with an
index-out-of-bounds before the workchain is even parsed. -/
def process_msg (env : Env) (b : TerminalBrowser) (msg : String) :
    Outcome (TerminalBrowser × List String) :=
  match env.parse_message msg with
  | .error e => .err e
  | .ok (dst, src) =>
    match dst with
    | none => .err "parsed message has no dst address"
    | some msg_dest =>
      match src with
      | none => .err "parsed message has no dst address"
      | some msg_src =>
        match (splitCharsOn ':' msg_dest.data)[1]? with
        | none => .panic "index out of bounds: the len is 1 but the index is 1"
        | some idChars =>
          match i8_from_chars ((splitCharsOn ':' msg_dest.data).headD []) with
          | none => .err "invalid digit found in string"
          | some wc =>
            if wc = DEBOT_WC then
              match call_interface env b msg (String.mk idChars) msg_src with
              | .error e => .err e
              | .ok r => .ok r
            else
              match call_debot env b msg_dest msg with
              | .error e => .err e
              | .ok r => .ok r

/-- Result of the inner drain loop. -/
inductive DrainResult where
  | drained (b : TerminalBrowser)
  | failed (e : String)
  | panicked (m : String)
  | outOfFuel
deriving DecidableEq, Repr

/-- Observable events of the router loop: each `pop_front` on the shared
queue (with its result) and each call of `select_action`, recording the
length of the shared queue at that moment. -/
inductive LoopEvent where
  | popped (msg : Option String)
  | prompted (queueLen : Nat)
deriving DecidableEq, Repr

/-- The inner `while let Some(msg) = next_msg` drain loop of
`run_debot_browser` (lines 327-356), fuelled by the number of pops. -/
def drain_loop (env : Env) : Nat → TerminalBrowser → DrainResult × List String × List LoopEvent
  | 0, _ => (.outOfFuel, [], [])
  | fuel + 1, b =>
    match b.msg_queue with
    | [] => (.drained b, [], [.popped none])
    | msg :: rest =>
      match process_msg env { b with msg_queue := rest } msg with
      | .err e => (.failed e, [], [.popped (some msg)])
      | .panic m => (.panicked m, [], [.popped (some msg)])
      | .ok (b1, out) =>
        match drain_loop env fuel b1 with
        | (r, out2, evs) => (r, out ++ out2, .popped (some msg) :: evs)

/-- Result of the outer browser loop / whole run. -/
inductive RunResult where
  | done
  | failed (e : String)
  | panicked (m : String)
  | blocked
  | outOfFuel
deriving DecidableEq, Repr

/-- The outer `loop` of `run_debot_browser` (lines 326-370): drain the
shared queue to empty, look up the root session by the raw `addr`, call
`select_action`, and on a chosen action call the engine's
`execute_action` (whose failure is fatal) and iterate.  Note that the
source merges no callback messages after `execute_action`; they stay in
the session state until the next `send` to that session. -/
def browser_loop (env : Env) (addr : String) :
    Nat → TerminalBrowser → List String → RunResult × List String × List LoopEvent
  | 0, _, _ => (.outOfFuel, [], [])
  | fuel + 1, b, inputs =>
    match drain_loop env (fuel + 1) b with
    | (.failed e, out1, evs1) => (.failed e, out1, evs1)
    | (.panicked m, out1, evs1) => (.panicked m, out1, evs1)
    | (.outOfFuel, out1, evs1) => (.outOfFuel, out1, evs1)
    | (.drained b1, out1, evs1) =>
      match botsLookup b1.bots addr with
      | none => (.failed "Internal error: debot not found", out1, evs1)
      | some debot =>
        let s := select_action debot.callbacks_state inputs
        let evs2 := evs1 ++ [LoopEvent.prompted b1.msg_queue.length]
        match s.result with
        | .blocked => (.blocked, out1 ++ s.output, evs2)
        | .exitBrowser => (.done, out1 ++ s.output, evs2)
        | .selected act =>
          match env.execute_action addr act with
          | (res, events) =>
            match applyEvents debot.callbacks_state events with
            | (st1, out3) =>
              let b2 : TerminalBrowser :=
                { b1 with bots := botsInsert b1.bots addr ⟨debot.abi, st1⟩ }
              match res with
              | .error e => (.failed e, out1 ++ s.output ++ out3, evs2)
              | .ok _ =>
                match browser_loop env addr fuel b2 s.rest with
                | (r, out4, evs3) => (r, out1 ++ s.output ++ out3 ++ out4, evs2 ++ evs3)

/-- Rust `run_debot_browser` (lines 318-373): create the browser, fetch the
root debot with `start = true`, run the loop, and print the shutdown
notice when the loop breaks.  The `Connecting to ...` line and client
creation are external setup and not modelled. -/
def run_debot_browser (env : Env) (addr : String) (fuel : Nat) (inputs : List String) :
    RunResult × List String × List LoopEvent :=
  match fetch_debot env { msg_queue := [], bots := [] } addr true with
  | .error e => (.failed e, [], [])
  | .ok (b, out0) =>
    match browser_loop env addr fuel b inputs with
    | (.done, out, evs) => (.done, out0 ++ out ++ ["Debot Browser shutdown"], evs)
    | (r, out, evs) => (r, out0 ++ out, evs)

/-- Boolean form of the spec's invalid operator token for a menu of `maxn`
actions: non-numeric, or parsing to 0 or to a value above the count. -/
def invalidTok (maxn : Nat) (t : String) : Bool :=
  match usize_from_str_radix t with
  | none => true
  | some n => decide (n = 0) || decide (maxn < n)

/-! Concrete fixtures used by the witness theorems. -/

/-- A benign environment: identity address loading, engines that succeed
with no callback events, a registry that recognizes nothing. -/
def envA : Env where
  load_ton_address := fun a => .ok a
  load_abi := fun j => .ok ⟨j⟩
  dengine_start := fun _ _ => (.ok "abi", [])
  dengine_send := fun _ _ => (.ok (), [])
  execute_action := fun _ _ => (.ok (), [])
  parse_message := fun _ => .ok (some "0:bb", some "0:src")
  try_execute := fun _ _ => none
  encode_internal_message := fun _ _ _ => .ok "resp"

/-- A fresh session entry. -/
def entryA : DebotEntry := ⟨⟨"abi"⟩, ActiveState.initial⟩

/-- A browser with an empty queue and one session at address `a`. -/
def bW : TerminalBrowser := ⟨[], [("a", entryA)]⟩

/-- Environment in which every engine `send` fails with `boom`. -/
def envC1 : Env := { envA with dengine_send := fun _ _ => (.error "boom", []) }

/-- Browser holding two queued envelopes and the destination session. -/
def bC1 : TerminalBrowser := ⟨["m1", "m2"], [("0:bb", entryA)]⟩

/-- Environment whose registry recognizes every capability and whose
engine `send` fails, for the non-fatal capability-path witness. -/
def envC1b : Env :=
  { envA with
    try_execute := fun _ _ => some (.ok (5, "args")),
    dengine_send := fun _ _ => (.error "boom", []) }

/-- Browser with the source session of a capability call. -/
def bC1b : TerminalBrowser := ⟨[], [("0:src", entryA)]⟩

/-- Environment whose engine `send` reacts with two outbound envelopes. -/
def envC3 : Env :=
  { envA with dengine_send := fun _ _ => (.ok (), [.sendMsg "p1", .sendMsg "p2"]) }

/-- Browser with only the destination session. -/
def bC3 : TerminalBrowser := ⟨[], [("0:bb", entryA)]⟩

/-- Environment parsing every envelope to a destination with no `:`. -/
def envC8 : Env := { envA with parse_message := fun _ => .ok (some "nocolon", some "0:src") }

/-- Environment parsing every envelope to a destination whose workchain
part is not a number. -/
def envC8b : Env := { envA with parse_message := fun _ => .ok (some "xx:yy", some "0:src") }

/-- Environment whose address loading prepends the workchain, so the
normalized address differs from the raw one. -/
def envC10 : Env := { envA with load_ton_address := fun a => .ok ("0:" ++ a) }

/-! Theorems. -/

/-- C4: calling the context-switch callback with the terminal sentinel
`STATE_EXIT` sets the context id but never clears the active-actions list,
and afterwards `select_action` returns no action — the browser loop
transitions to Terminal — whatever actions are still listed, whatever the
session queue holds, and whatever the operator would type. -/
theorem switch_exit_preserves_actions_and_exits (st : ActiveState) (inputs : List String) :
    (Callbacks.switch st STATE_EXIT).active_actions = st.active_actions ∧
    (Callbacks.switch st STATE_EXIT).state_id = STATE_EXIT ∧
    (select_action (Callbacks.switch st STATE_EXIT) inputs).result = SelectResult.exitBrowser := by
  refine ⟨by simp [Callbacks.switch], by simp [Callbacks.switch], ?_⟩
  simp [Callbacks.switch, select_action]

/-- Effect of a run of `show_action` callbacks on arbitrary state: actions
are appended in call order, and the printed menu lines carry the 1-based
positions continuing from the existing action count. -/
theorem applyEvents_showActions (acts : List DAction) (st : ActiveState) :
    (applyEvents st (acts.map CallbackEvent.showAction)).1 =
      { st with active_actions := st.active_actions ++ acts } ∧
    (applyEvents st (acts.map CallbackEvent.showAction)).2 =
      (List.enumFrom st.active_actions.length acts).map
        (fun p => toString (p.1 + 1) ++ ") " ++ p.2.desc) := by
  induction acts generalizing st with
  | nil => simp [applyEvents]
  | cons a rest ih =>
    obtain ⟨ih1, ih2⟩ := ih { st with active_actions := st.active_actions ++ [a] }
    constructor
    · simp [applyEvents, applyEvent, Callbacks.show_action, ih1]
    · simp [applyEvents, applyEvent, Callbacks.show_action, ih2, List.enumFrom]

/-- C5: switching to any non-terminal context always replaces the
active-actions list with the empty list, and `k` subsequent `show_action`
calls append in call order while printing exactly the contiguous 1-based
indices `1..k`. -/
theorem switch_then_show_actions_indices (st : ActiveState) (ctx : Nat) (acts : List DAction)
    (h : ctx ≠ STATE_EXIT) :
    (Callbacks.switch st ctx).active_actions = [] ∧
    (applyEvents (Callbacks.switch st ctx) (acts.map CallbackEvent.showAction)).1.active_actions
      = acts ∧
    (applyEvents (Callbacks.switch st ctx) (acts.map CallbackEvent.showAction)).2
      = (List.enumFrom 0 acts).map (fun p => toString (p.1 + 1) ++ ") " ++ p.2.desc) := by
  have hs : Callbacks.switch st ctx = { st with state_id := ctx, active_actions := [] } := by
    simp [Callbacks.switch, h]
  obtain ⟨h1, h2⟩ := applyEvents_showActions acts { st with state_id := ctx, active_actions := [] }
  rw [hs]
  refine ⟨rfl, ?_, ?_⟩
  · rw [h1]
    rfl
  · rw [h2]
    rfl

/-- Witness for C5 at a concrete context switch followed by two
`show_action` calls: the menu shows `1) Transfer` then `2) Back`. -/
theorem switch_then_show_actions_indices_witness :
    (applyEvents (Callbacks.switch ⟨7, [⟨"x", "X"⟩], ["q"]⟩ 1)
        ([⟨"a", "Transfer"⟩, ⟨"b", "Back"⟩].map CallbackEvent.showAction)).2
      = ["1) Transfer", "2) Back"] := by
  have h := switch_then_show_actions_indices ⟨7, [⟨"x", "X"⟩], ["q"]⟩ 1
      [⟨"a", "Transfer"⟩, ⟨"b", "Back"⟩] (by decide)
  exact h.2.2.trans (by decide)

/-- C6: a capability-call envelope whose source session exists but whose
capability the registry does not recognize is silently dropped:
`call_interface` raises no error, prints nothing, and returns the browser
— shared queue, bots map and every session state — unchanged. -/
theorem unknown_interface_silent_drop (env : Env) (b : TerminalBrowser)
    (msg iid src : String) (entry : DebotEntry)
    (h1 : botsLookup b.bots src = some entry)
    (h2 : env.try_execute msg iid = none) :
    call_interface env b msg iid src = Except.ok (b, []) := by
  simp [call_interface, h1, h2]

/-- Witness for C6: a concrete unrecognized capability call returns the
browser untouched. -/
theorem unknown_interface_silent_drop_witness :
    call_interface envA bW "m" "iid" "a" = Except.ok (bW, []) :=
  unknown_interface_silent_drop envA bW "m" "iid" "a" entryA rfl rfl

/-- The retry loop consumes invalid tokens one at a time: each is rejected
with exactly one printed retry line, the loop's eventual result and leftover
input are those of the remaining tokens, and a stream of only invalid
tokens leaves the loop still waiting (it neither returns, errors, nor
crashes). -/
theorem select_loop_skips_invalid (actions : List DAction)
    (hlen : actions.length < 2 ^ 64) (bad rest : List String)
    (hbad : ∀ t ∈ bad, invalidTok actions.length t = true) :
    (select_action_loop actions (bad ++ rest)).result = (select_action_loop actions rest).result ∧
    (select_action_loop actions (bad ++ rest)).rest = (select_action_loop actions rest).rest ∧
    (select_action_loop actions (bad ++ rest)).output.length
      = bad.length + (select_action_loop actions rest).output.length ∧
    (select_action_loop actions bad).result = SelectResult.blocked := by
  induction bad with
  | nil => simp [select_action_loop]
  | cons t bad ih =>
    have ht := hbad t (List.mem_cons_self t bad)
    obtain ⟨ih1, ih2, ih3, ih4⟩ := ih (fun u hu => hbad u (List.mem_cons_of_mem _ hu))
    cases hp : usize_from_str_radix t with
    | none =>
      refine ⟨?_, ?_, ?_, ?_⟩ <;>
        simp [select_action_loop, action_input, hp, ih1, ih2, ih3, ih4, Nat.add_assoc,
          Nat.add_comm 1]
    | some n =>
      rw [invalidTok, hp] at ht
      have hn : n = 0 ∨ actions.length < n := by
        rcases Bool.or_eq_true_iff.mp ht with h | h
        · exact Or.inl (of_decide_eq_true h)
        · exact Or.inr (of_decide_eq_true h)
      rcases hn with h0 | hgt
      · subst h0
        have hget : actions[usizeSub1 0]? = none := by
          apply List.getElem?_eq_none
          have h1 : usizeSub1 0 = 2 ^ 64 - 1 := by norm_num [usizeSub1]
          omega
        refine ⟨?_, ?_, ?_, ?_⟩ <;>
          simp [select_action_loop, action_input, hp, hget, ih1, ih2, ih3, ih4,
            Nat.add_assoc, Nat.add_comm 1]
      · refine ⟨?_, ?_, ?_, ?_⟩ <;>
          simp [select_action_loop, action_input, hp, hgt, ih1, ih2, ih3, ih4,
            Nat.add_assoc, Nat.add_comm 1]

/-- C7: at the numbered-action prompt, every token that is non-numeric or
out of range for the current action count (0 included, as is anything
above the count) is rejected with exactly one retry line and the prompt
repeats: no error escalates out of `select_action` and no crash occurs,
for any number of retries — a stream of only invalid tokens leaves the
loop still prompting. -/
theorem invalid_action_input_reprompts (st : ActiveState) (bad rest : List String)
    (hexit : st.state_id ≠ STATE_EXIT) (hne : st.active_actions.length ≠ 0)
    (hlen : st.active_actions.length < 2 ^ 64)
    (hbad : ∀ t ∈ bad, invalidTok st.active_actions.length t = true) :
    (select_action st (bad ++ rest)).result = (select_action st rest).result ∧
    (select_action st (bad ++ rest)).rest = (select_action st rest).rest ∧
    (select_action st (bad ++ rest)).output.length
      = bad.length + (select_action st rest).output.length ∧
    (select_action st bad).result = SelectResult.blocked := by
  obtain ⟨h1, h2, h3, h4⟩ := select_loop_skips_invalid st.active_actions hlen bad rest hbad
  refine ⟨?_, ?_, ?_, ?_⟩ <;> simp [select_action, hexit, hne, h1, h2, h3, h4]

/-- Witness for C7: with two actions, the invalid tokens `x`, `0` and `99`
are each rejected with a retry and a following `2` still selects the
second action. -/
theorem invalid_action_input_reprompts_witness :
    (select_action ⟨0, [⟨"n", "A"⟩, ⟨"m", "B"⟩], []⟩ (["x", "0", "99"] ++ ["2"])).result
        = (select_action ⟨0, [⟨"n", "A"⟩, ⟨"m", "B"⟩], []⟩ ["2"]).result ∧
    (select_action ⟨0, [⟨"n", "A"⟩, ⟨"m", "B"⟩], []⟩ ["2"]).result
        = SelectResult.selected ⟨"m", "B"⟩ ∧
    (select_action ⟨0, [⟨"n", "A"⟩, ⟨"m", "B"⟩], []⟩ ["x", "0", "99"]).result
        = SelectResult.blocked := by
  have h := invalid_action_input_reprompts ⟨0, [⟨"n", "A"⟩, ⟨"m", "B"⟩], []⟩
      ["x", "0", "99"] ["2"] (by decide) (by decide) (by decide) (by decide)
  exact ⟨h.1, by decide, h.2.2.2⟩

/-- The retry loop performs a blocking operator read first thing in every
run: its lock trace starts with `blockingInput`. -/
theorem select_loop_trace_cons (actions : List DAction) (inputs : List String) :
    ∃ tr, (select_action_loop actions inputs).trace = LockEvent.blockingInput :: tr := by
  cases inputs with
  | nil => exact ⟨[], rfl⟩
  | cons t rest =>
    cases hp : action_input actions.length t with
    | error e =>
      exact ⟨(select_action_loop actions rest).trace, by simp [select_action_loop, hp]⟩
    | ok n =>
      cases hg : actions[usizeSub1 n]? with
      | none =>
        exact ⟨(select_action_loop actions rest).trace, by simp [select_action_loop, hp, hg]⟩
      | some a => exact ⟨[], by simp [select_action_loop, hp, hg]⟩

/-- Once a blocking read has been seen while a guard was held, the lock
audit stays true. -/
theorem lockFold_true (tr : List LockEvent) (d : Nat) :
    (tr.foldl lockFoldStep (d, true)).2 = true := by
  induction tr generalizing d with
  | nil => rfl
  | cons e tr ih => cases e <;> simp [List.foldl, lockFoldStep] <;> exact ih _

/-- C9 counterexample: with one action, a non-terminal context and the
operator answering `1`, `select_action` performs its blocking operator
read while the read guard taken at entry is still held — the lock is not
released before the blocking read. -/
theorem lock_held_during_input_cex :
    blockedWhileHoldingLock (select_action ⟨0, [⟨"n", "A"⟩], []⟩ ["1"]).trace = true := by
  decide

/-- C9 amended: whenever `select_action` prompts at all (non-terminal
context, non-empty action list), the read guard acquired at entry is held
across the blocking operator reads: every such run blocks on input while
holding the lock, so an engine callback wanting the write lock would wait
behind the operator. -/
theorem read_lock_held_while_prompting (st : ActiveState) (inputs : List String)
    (hexit : st.state_id ≠ STATE_EXIT) (hne : st.active_actions.length ≠ 0) :
    blockedWhileHoldingLock (select_action st inputs).trace = true := by
  obtain ⟨tr, htr⟩ := select_loop_trace_cons st.active_actions inputs
  have hsel : (select_action st inputs).trace =
      LockEvent.acquireRead :: ((select_action_loop st.active_actions inputs).trace ++
        if (select_action_loop st.active_actions inputs).result = .blocked then []
        else [LockEvent.releaseRead]) := by
    simp [select_action, hexit, hne]
  rw [hsel, htr, blockedWhileHoldingLock]
  simp only [List.cons_append, List.foldl_cons, lockFoldStep]
  exact lockFold_true _ _

/-- Witness for C9 amended: a retry followed by a valid selection, all
performed under the held read guard. -/
theorem read_lock_held_while_prompting_witness :
    blockedWhileHoldingLock (select_action ⟨3, [⟨"n", "A"⟩, ⟨"m", "B"⟩], ["q"]⟩ ["9", "2"]).trace
      = true :=
  read_lock_held_while_prompting ⟨3, [⟨"n", "A"⟩, ⟨"m", "B"⟩], ["q"]⟩ ["9", "2"]
    (by decide) (by decide)

/-- C8 counterexample: a drained envelope whose destination string has no
`:` separator makes the classification step panic on the unguarded slice
index `wc_and_addr[1]` — an unguarded crash, not a returned routing
error. -/
theorem missing_colon_panics_cex :
    process_msg envC8 ⟨[], []⟩ "m"
      = Outcome.panic "index out of bounds: the len is 1 but the index is 1" := by
  rfl

/-- C8 amended: the classification of a drained envelope is not total
under returned errors — a destination whose workchain part does not parse
as an i8 does fail the run with a returned error, but a destination with
no `:` separator panics on the unguarded index of the split parts. -/
theorem malformed_dest_error_or_panic (env : Env) (b : TerminalBrowser)
    (msg dst src : String)
    (hparse : env.parse_message msg = Except.ok (some dst, some src)) :
    ((splitCharsOn ':' dst.data).length = 1 →
        (process_msg env b msg).isPanic = true) ∧
    (2 ≤ (splitCharsOn ':' dst.data).length →
        i8_from_chars ((splitCharsOn ':' dst.data).headD []) = none →
        (process_msg env b msg).isErr = true) := by
  constructor
  · intro hlen
    have hg : (splitCharsOn ':' dst.data)[1]? = none :=
      List.getElem?_eq_none (by omega)
    simp [process_msg, hparse, hg, Outcome.isPanic]
  · intro hlen hi8
    have hlt : 1 < (splitCharsOn ':' dst.data).length := by omega
    obtain ⟨x, hg⟩ : ∃ x, (splitCharsOn ':' dst.data)[1]? = some x :=
      ⟨_, List.getElem?_eq_getElem hlt⟩
    simp only [List.headD_eq_head?_getD] at hi8
    simp [process_msg, hparse, hg, hi8, Outcome.isErr]

/-- Witness for C8 amended: destination `nocolon` panics; destination
`xx:yy` (workchain part not a number) yields a returned error. -/
theorem malformed_dest_error_or_panic_witness :
    (process_msg envC8 ⟨[], []⟩ "m").isPanic = true ∧
    (process_msg envC8b ⟨[], []⟩ "m").isErr = true :=
  ⟨(malformed_dest_error_or_panic envC8 ⟨[], []⟩ "m" "nocolon" "0:src" rfl).1 (by decide),
   (malformed_dest_error_or_panic envC8b ⟨[], []⟩ "m" "xx:yy" "0:src" rfl).2
     (by decide) (by decide)⟩

/-- C1 counterexample: with two queued envelopes and an engine whose
`send` fails, dispatching the first (bot-to-bot) envelope aborts the drain
loop with the fatal error `Debot failed: boom`: nothing is logged to the
operator and the second envelope is never popped, so the router does not
continue draining. -/
theorem send_failure_bot_to_bot_aborts_cex :
    drain_loop envC1 3 bC1
      = (DrainResult.failed "Debot failed: boom", [], [LoopEvent.popped (some "m1")]) := by
  rfl

/-- C1 amended: a `send` failure while dispatching a bot-to-bot envelope
is fatal — `call_debot` returns `Debot failed: ...` and the drain loop
stops with the remaining queue unprocessed and nothing logged; it is the
capability-call path (`call_interface`) whose `send` failure is non-fatal,
logged as a `Debot error: ...` line while the call still succeeds. -/
theorem send_failure_fatal_on_bot_path (env : Env) (b : TerminalBrowser)
    (addr msg e : String) (entry : DebotEntry)
    (h1 : botsLookup b.bots addr = some entry)
    (h2 : (env.dengine_send addr msg).1 = Except.error e) :
    call_debot env b addr msg = Except.error ("Debot failed: " ++ e) ∧
    (∀ (fuel : Nat) (b2 : TerminalBrowser) (m e2 : String) (rest : List String),
      process_msg env { b2 with msg_queue := rest } m = Outcome.err e2 →
      drain_loop env (fuel + 1) { b2 with msg_queue := m :: rest }
        = (DrainResult.failed e2, [], [LoopEvent.popped (some m)])) ∧
    (∀ (iid src e3 resp args : String) (fid : Nat) (entry2 : DebotEntry)
        (evs : List CallbackEvent),
      botsLookup b.bots src = some entry2 →
      env.try_execute msg iid = some (Except.ok (fid, args)) →
      env.encode_internal_message entry2.abi src
          (if fid = 0 then none else some (fid, args)) = Except.ok resp →
      env.dengine_send src resp = (Except.error e3, evs) →
      ∃ (b3 : TerminalBrowser) (out : List String),
        call_interface env b msg iid src = Except.ok (b3, out ++ ["Debot error: " ++ e3])) := by
  refine ⟨?_, ?_, ?_⟩
  · rcases hsend : env.dengine_send addr msg with ⟨res, evs⟩
    rw [hsend] at h2
    simp only at h2
    subst h2
    simp [call_debot, h1, hsend]
  · intro fuel b2 m e2 rest hp
    rw [drain_loop]
    simp [hp]
  · intro iid src e3 resp args fid entry2 evs hl ht he hs
    rcases hae : applyEvents entry2.callbacks_state evs with ⟨st1, out⟩
    refine ⟨⟨b.msg_queue ++ st1.msg_queue,
        botsInsert b.bots src ⟨entry2.abi, { st1 with msg_queue := [] }⟩⟩, out, ?_⟩
    simp [call_interface, hl, ht, he, hs, hae]

/-- Witness for C1 amended: the concrete failing bot-to-bot send is fatal
and aborts the drain; the concrete failing capability-path send is logged
and non-fatal. -/
theorem send_failure_fatal_on_bot_path_witness :
    call_debot envC1 bC1 "0:bb" "m1" = Except.error ("Debot failed: " ++ "boom") ∧
    drain_loop envC1 1 { bC1 with msg_queue := ["m1", "m2"] }
      = (DrainResult.failed "Debot failed: boom", [], [LoopEvent.popped (some "m1")]) ∧
    (∃ (b3 : TerminalBrowser) (out : List String),
      call_interface envC1b bC1b "m" "iid" "0:src"
        = Except.ok (b3, out ++ ["Debot error: " ++ "boom"])) :=
  ⟨(send_failure_fatal_on_bot_path envC1 bC1 "0:bb" "m1" "boom" entryA rfl rfl).1,
   (send_failure_fatal_on_bot_path envC1 bC1 "0:bb" "m1" "boom" entryA rfl rfl).2.1
     0 bC1 "m1" "Debot failed: boom" ["m2"] rfl,
   (send_failure_fatal_on_bot_path envC1b bC1b "0:src" "m" "boom" entryA rfl rfl).2.2
     "iid" "0:src" "boom" "resp" "args" 5 entryA [] rfl rfl rfl rfl⟩

/-- When the drain loop reports the queue drained, the resulting browser
queue is empty. -/
theorem drain_drained_queue_empty (env : Env) :
    ∀ (fuel : Nat) (b b1 : TerminalBrowser) (out : List String) (evs : List LoopEvent),
      drain_loop env fuel b = (DrainResult.drained b1, out, evs) → b1.msg_queue = [] := by
  intro fuel
  induction fuel with
  | zero =>
    intro b b1 out evs h
    simp [drain_loop] at h
  | succ fuel ih =>
    intro b b1 out evs h
    rw [drain_loop] at h
    cases hq : b.msg_queue with
    | nil =>
      simp only [hq, Prod.mk.injEq, DrainResult.drained.injEq] at h
      obtain ⟨h1, -, -⟩ := h
      rw [← h1]
      exact hq
    | cons m rest =>
      simp only [hq] at h
      cases hp : process_msg env { b with msg_queue := rest } m with
      | err e => simp [hp] at h
      | panic s => simp [hp] at h
      | ok p =>
        obtain ⟨b2, out2⟩ := p
        rcases hd : drain_loop env fuel b2 with ⟨r, o2, e2⟩
        simp only [hp, hd, Prod.mk.injEq] at h
        obtain ⟨hr, -, -⟩ := h
        exact ih b2 b1 o2 e2 (by rw [hd, hr])

/-- The drain loop emits only `popped` events, never a prompt. -/
theorem drain_no_prompt (env : Env) :
    ∀ (fuel : Nat) (b : TerminalBrowser) (n : Nat),
      LoopEvent.prompted n ∉ (drain_loop env fuel b).2.2 := by
  intro fuel
  induction fuel with
  | zero => intro b n; simp [drain_loop]
  | succ fuel ih =>
    intro b n
    rw [drain_loop]
    cases hq : b.msg_queue with
    | nil => simp
    | cons m rest =>
      simp only []
      cases hp : process_msg env { b with msg_queue := rest } m with
      | err e => simp [hp]
      | panic s => simp [hp]
      | ok p =>
        obtain ⟨b2, out2⟩ := p
        rcases hd : drain_loop env fuel b2 with ⟨r, o2, e2⟩
        simp only [hp, hd, List.mem_cons, not_or]
        refine ⟨by simp, ?_⟩
        have h2 := ih b2 n
        rw [hd] at h2
        simpa using h2

/-- C2: in every run of the browser loop the operator is prompted only
when the shared message queue is empty — every `prompted` event records
queue length 0, so `select_action` is reached only after `pop_front`
returned nothing. -/
theorem prompt_only_when_queue_empty (env : Env) (addr : String) :
    ∀ (fuel : Nat) (b : TerminalBrowser) (inputs : List String) (n : Nat),
      LoopEvent.prompted n ∈ (browser_loop env addr fuel b inputs).2.2 → n = 0 := by
  intro fuel
  induction fuel with
  | zero => intro b inputs n h; simp [browser_loop] at h
  | succ fuel ih =>
    intro b inputs n h
    rw [browser_loop] at h
    rcases hd : drain_loop env (fuel + 1) b with ⟨dr, out1, evs1⟩
    have hnp : LoopEvent.prompted n ∉ evs1 := by
      have h2 := drain_no_prompt env (fuel + 1) b n
      rw [hd] at h2
      simpa using h2
    cases dr with
    | failed e => simp only [hd] at h; exact absurd h hnp
    | panicked m => simp only [hd] at h; exact absurd h hnp
    | outOfFuel => simp only [hd] at h; exact absurd h hnp
    | drained b1 =>
      have hq : b1.msg_queue = [] :=
        drain_drained_queue_empty env (fuel + 1) b b1 out1 evs1 hd
      cases hl : botsLookup b1.bots addr with
      | none =>
        simp only [hd, hl] at h
        exact absurd h hnp
      | some debot =>
        cases hs : (select_action debot.callbacks_state inputs).result with
        | blocked =>
          simp only [hd, hl, hs, List.mem_append, List.mem_singleton] at h
          rcases h with h | h
          · exact absurd h hnp
          · rw [hq] at h; simpa using h
        | exitBrowser =>
          simp only [hd, hl, hs, List.mem_append, List.mem_singleton] at h
          rcases h with h | h
          · exact absurd h hnp
          · rw [hq] at h; simpa using h
        | selected act =>
          rcases hx : env.execute_action addr act with ⟨res, events⟩
          rcases hae : applyEvents debot.callbacks_state events with ⟨st1, out3⟩
          cases res with
          | error e =>
            simp only [hd, hl, hs, hx, hae, List.mem_append, List.mem_singleton] at h
            rcases h with h | h
            · exact absurd h hnp
            · rw [hq] at h; simpa using h
          | ok u =>
            rcases hb : browser_loop env addr fuel
                { b1 with bots := botsInsert b1.bots addr ⟨debot.abi, st1⟩ }
                (select_action debot.callbacks_state inputs).rest with ⟨r, out4, evs3⟩
            simp only [hd, hl, hs, hx, hae, hb, List.mem_append, List.mem_singleton] at h
            rcases h with (h | h) | h
            · exact absurd h hnp
            · rw [hq] at h; simpa using h
            · have h3 := ih { b1 with bots := botsInsert b1.bots addr ⟨debot.abi, st1⟩ }
                (select_action debot.callbacks_state inputs).rest n
              rw [hb] at h3
              exact h3 (by simpa using h)

/-- Witness for C2: a concrete two-iteration run whose single prompt event
indeed records an empty queue. -/
theorem prompt_only_when_queue_empty_witness :
    LoopEvent.prompted 0 ∈ (browser_loop envA "a" 2 bW []).2.2 ∧ (0 : Nat) = 0 :=
  ⟨by decide, prompt_only_when_queue_empty envA "a" 2 bW [] 0 (by decide)⟩

/-- A successful `fetch_debot` only appends the start-up messages after
the existing shared queue. -/
theorem fetch_debot_queue_extends (env : Env) (b : TerminalBrowser) (addr : String)
    (start : Bool) (b1 : TerminalBrowser) (out : List String)
    (h : fetch_debot env b addr start = Except.ok (b1, out)) :
    ∃ produced, b1.msg_queue = b.msg_queue ++ produced := by
  rw [fetch_debot] at h
  cases hla : env.load_ton_address addr with
  | error e => simp [hla] at h
  | ok debot_addr =>
    rcases hst : env.dengine_start debot_addr start with ⟨res, events⟩
    rcases hae : applyEvents ActiveState.initial events with ⟨cbState, out0⟩
    cases res with
    | error e => simp [hla, hst, hae] at h
    | ok abi_json =>
      cases hab : env.load_abi abi_json with
      | error e => simp [hla, hst, hae, hab] at h
      | ok abi =>
        simp only [hla, hst, hae, hab, Except.ok.injEq, Prod.mk.injEq] at h
        obtain ⟨hb, -⟩ := h
        exact ⟨cbState.msg_queue, by rw [← hb]⟩

/-- A successful `call_interface` only appends the reaction messages after
the existing shared queue. -/
theorem call_interface_queue_extends (env : Env) (b : TerminalBrowser)
    (msg iid src : String) (b1 : TerminalBrowser) (out : List String)
    (h : call_interface env b msg iid src = Except.ok (b1, out)) :
    ∃ produced, b1.msg_queue = b.msg_queue ++ produced := by
  rw [call_interface] at h
  cases hl : botsLookup b.bots src with
  | none => simp [hl] at h
  | some debot =>
    cases hte : env.try_execute msg iid with
    | none =>
      simp only [hl, hte, Except.ok.injEq, Prod.mk.injEq] at h
      obtain ⟨hb, -⟩ := h
      exact ⟨[], by rw [← hb]; simp⟩
    | some result =>
      cases result with
      | error e => simp [hl, hte] at h
      | ok p =>
        obtain ⟨fid, args⟩ := p
        cases he : env.encode_internal_message debot.abi src
            (if fid = 0 then none else some (fid, args)) with
        | error e => simp [hl, hte, he] at h
        | ok resp =>
          rcases hsd : env.dengine_send src resp with ⟨res, events⟩
          rcases hae : applyEvents debot.callbacks_state events with ⟨st1, out1⟩
          cases res with
          | error e =>
            simp only [hl, hte, he, hsd, hae, Except.ok.injEq, Prod.mk.injEq] at h
            obtain ⟨hb, -⟩ := h
            exact ⟨st1.msg_queue, by rw [← hb]⟩
          | ok u =>
            simp only [hl, hte, he, hsd, hae, Except.ok.injEq, Prod.mk.injEq] at h
            obtain ⟨hb, -⟩ := h
            exact ⟨st1.msg_queue, by rw [← hb]⟩

/-- A successful `call_debot` only appends messages (start-up then
reaction) after the existing shared queue. -/
theorem call_debot_queue_extends (env : Env) (b : TerminalBrowser)
    (addr msg : String) (b1 : TerminalBrowser) (out : List String)
    (h : call_debot env b addr msg = Except.ok (b1, out)) :
    ∃ produced, b1.msg_queue = b.msg_queue ++ produced := by
  rw [call_debot] at h
  by_cases hn : (botsLookup b.bots addr).isNone
  · rw [if_pos hn] at h
    cases hf : fetch_debot env b addr false with
    | error e => simp [hf] at h
    | ok p =>
      obtain ⟨b0, out0⟩ := p
      obtain ⟨p0, hp0⟩ := fetch_debot_queue_extends env b addr false b0 out0 hf
      cases hl : botsLookup b0.bots addr with
      | none => simp [hf, hl] at h
      | some debot =>
        rcases hsd : env.dengine_send addr msg with ⟨res, events⟩
        rcases hae : applyEvents debot.callbacks_state events with ⟨st1, out2⟩
        cases res with
        | error e => simp [hf, hl, hsd] at h
        | ok u =>
          simp only [hf, hl, hsd, hae, Except.ok.injEq, Prod.mk.injEq] at h
          obtain ⟨hb, -⟩ := h
          exact ⟨p0 ++ st1.msg_queue, by rw [← hb]; simp [hp0]⟩
  · rw [if_neg hn] at h
    cases hl : botsLookup b.bots addr with
    | none => simp [hl] at h
    | some debot =>
      rcases hsd : env.dengine_send addr msg with ⟨res, events⟩
      rcases hae : applyEvents debot.callbacks_state events with ⟨st1, out2⟩
      cases res with
      | error e => simp [hl, hsd] at h
      | ok u =>
        simp only [hl, hsd, hae, Except.ok.injEq, Prod.mk.injEq] at h
        obtain ⟨hb, -⟩ := h
        exact ⟨st1.msg_queue, by rw [← hb]⟩

/-- Every successful drained-envelope step only appends its produced
envelopes after the queue it started from. -/
theorem process_msg_queue_extends (env : Env) (b : TerminalBrowser) (msg : String)
    (b1 : TerminalBrowser) (out : List String)
    (h : process_msg env b msg = Outcome.ok (b1, out)) :
    ∃ produced, b1.msg_queue = b.msg_queue ++ produced := by
  rw [process_msg] at h
  cases hpm : env.parse_message msg with
  | error e => simp [hpm] at h
  | ok p =>
    obtain ⟨dst, src⟩ := p
    cases dst with
    | none => simp [hpm] at h
    | some msg_dest =>
      cases src with
      | none => simp [hpm] at h
      | some msg_src =>
        cases hg : (splitCharsOn ':' msg_dest.data)[1]? with
        | none =>
          simp only [hpm, hg] at h
          exact Outcome.noConfusion h
        | some idc =>
          cases hi : i8_from_chars ((splitCharsOn ':' msg_dest.data).headD []) with
          | none =>
            simp only [hpm, hg, hi] at h
            exact Outcome.noConfusion h
          | some wc =>
            by_cases hw : wc = DEBOT_WC
            · cases hc : call_interface env b msg (String.mk idc) msg_src with
              | error e =>
                simp only [hpm, hg, hi, if_pos hw, hc] at h
                exact Outcome.noConfusion h
              | ok r =>
                obtain ⟨b2, out2⟩ := r
                simp only [hpm, hg, hi, if_pos hw, hc, Outcome.ok.injEq, Prod.mk.injEq] at h
                obtain ⟨hb, -⟩ := h
                obtain ⟨pr, hpr⟩ :=
                  call_interface_queue_extends env b msg (String.mk idc) msg_src b2 out2 hc
                exact ⟨pr, by rw [← hb, hpr]⟩
            · cases hc : call_debot env b msg_dest msg with
              | error e =>
                simp only [hpm, hg, hi, if_neg hw, hc] at h
                exact Outcome.noConfusion h
              | ok r =>
                obtain ⟨b2, out2⟩ := r
                simp only [hpm, hg, hi, if_neg hw, hc, Outcome.ok.injEq, Prod.mk.injEq] at h
                obtain ⟨hb, -⟩ := h
                obtain ⟨pr, hpr⟩ :=
                  call_debot_queue_extends env b msg_dest msg b2 out2 hc
                exact ⟨pr, by rw [← hb, hpr]⟩

/-- C3: strictly FIFO, breadth-first draining — the drain loop always pops
the oldest envelope first, and processing it only appends its reaction
envelopes (capability-call or bot-to-bot) after everything already in the
shared queue. -/
theorem fifo_breadth_first_append (env : Env) (b : TerminalBrowser)
    (msg : String) (rest : List String) (fuel : Nat) :
    (∀ (b1 : TerminalBrowser) (out : List String),
      process_msg env { b with msg_queue := rest } msg = Outcome.ok (b1, out) →
      ∃ produced, b1.msg_queue = rest ++ produced) ∧
    (drain_loop env (fuel + 1) { b with msg_queue := msg :: rest }).2.2.head?
      = some (LoopEvent.popped (some msg)) := by
  constructor
  · intro b1 out h
    have h2 := process_msg_queue_extends env { b with msg_queue := rest } msg b1 out h
    simpa using h2
  · rw [drain_loop]
    simp only []
    cases hp : process_msg env { b with msg_queue := rest } msg with
    | err e => simp [hp]
    | panic m => simp [hp]
    | ok p =>
      rcases p with ⟨b2, out2⟩
      rcases hd : drain_loop env fuel b2 with ⟨r, o2, e2⟩
      simp [hp, hd]

/-- Witness for C3: the concrete reaction envelopes `p1`, `p2` end up
after the already-queued `r`, and the drain pops `m1` first. -/
theorem fifo_breadth_first_append_witness :
    (∃ produced,
      (⟨["r", "p1", "p2"], [("0:bb", entryA)]⟩ : TerminalBrowser).msg_queue
        = ["r"] ++ produced) ∧
    (drain_loop envC3 2 { bC3 with msg_queue := ["m1", "r"] }).2.2.head?
      = some (LoopEvent.popped (some "m1")) :=
  ⟨(fifo_breadth_first_append envC3 bC3 "m1" ["r"] 1).1
      ⟨["r", "p1", "p2"], [("0:bb", entryA)]⟩ [] rfl,
   (fifo_breadth_first_append envC3 bC3 "m1" ["r"] 1).2⟩

/-- C10: `fetch_debot` keys the root session by the normalized address
returned by address loading while the main loop looks it up by the raw
address string; whenever normalization changes the string, the run fails
at its first prompting step with the internal `debot not found` error even
though session creation succeeded and the drain found nothing to do. -/
theorem normalized_key_lookup_mismatch (env : Env) (addr norm abi_json : String)
    (abi : Abi) (fuel : Nat) (inputs : List String)
    (h1 : env.load_ton_address addr = Except.ok norm)
    (h2 : norm ≠ addr)
    (h3 : env.dengine_start norm true = (Except.ok abi_json, []))
    (h4 : env.load_abi abi_json = Except.ok abi) :
    run_debot_browser env addr (fuel + 1) inputs
      = (RunResult.failed "Internal error: debot not found", [], [LoopEvent.popped none]) := by
  have hf : fetch_debot env ⟨[], []⟩ addr true
      = Except.ok (⟨[], [(norm, ⟨abi, ActiveState.initial⟩)]⟩, []) := by
    simp only [fetch_debot, h1, h3]
    simp [applyEvents, h4, botsInsert, ActiveState.initial]
  rw [run_debot_browser]
  simp only [hf, browser_loop, drain_loop, botsLookup]
  simp [h2]

/-- Witness for C10: address loading that prepends the workchain makes the
concrete run fail immediately with the internal lookup error. -/
theorem normalized_key_lookup_mismatch_witness :
    run_debot_browser envC10 "abc" 1 []
      = (RunResult.failed "Internal error: debot not found", [], [LoopEvent.popped none]) :=
  normalized_key_lookup_mismatch envC10 "abc" "0:abc" "abi" ⟨"abi"⟩ 0 []
    rfl (by decide) rfl rfl

end TermBrowser
